import Mathlib

/-!
Shallow embedding of the puzzle-fastapi-app guestbook application
(`src/app.py`, `src/db.py`) and proofs of the specification claims.

Conventions of the embedding:
* Time is modelled by integers (`ℤ`), standing for seconds since an epoch;
  `datetime.utcnow()` values become abstract integer timestamps (no claim
  depends on sub-second granularity; every statement below uses only the
  linear order and subtraction of times).
* A browser session is modelled by the data the routes read from it:
  the optional stored CSRF token (`Option String`, `none` when the session
  holds no `_csrf` key) and the truthiness of the `is_admin` key (`Bool`).
* The per-IP rate-limit map `recent_posts` is a total function
  `String → List ℤ` (the `defaultdict(list)` default is the empty list).
* The database table is a `Store`: the list of rows in insertion order plus
  the next auto-assigned primary key.
* Fallible storage is modelled by a boolean oracle `storeOk` passed to the
  route: `false` means the insert raises, which surfaces as a server error
  (`Response.serverError`) since the route has no handler for it.
-/

/-- Python's `str.strip()` whitespace set (the ASCII part Python strips). -/
def pyIsSpace (c : Char) : Bool :=
  c = ' ' || c = '\t' || c = '\n' || c = '\r' || c = '\x0b' || c = '\x0c'

/-- Python's `s.strip()`: drop leading and trailing whitespace. -/
def pyStrip (s : String) : String :=
  ⟨((s.data.dropWhile pyIsSpace).reverse.dropWhile pyIsSpace).reverse⟩

/-- `listStartsWith needle hay`: `needle` occurs at the head of `hay`. -/
def listStartsWith : List Char → List Char → Bool
  | [], _ => true
  | _ :: _, [] => false
  | a :: as, b :: bs => a == b && listStartsWith as bs

/-- `containsSeq needle hay`: `needle` occurs contiguously somewhere in `hay`. -/
def containsSeq (needle : List Char) : List Char → Bool
  | [] => needle.isEmpty
  | c :: rest => listStartsWith needle (c :: rest) || containsSeq needle rest

/-- Python's substring test `needle in hay`. -/
def strContains (hay needle : String) : Bool :=
  containsSeq needle.data hay.data

/-- `app.py` line 50: `WINDOW_SEC = 60` (seconds). -/
def WINDOW_SEC : ℤ := 60

/-- `app.py` line 51: `LIMIT = 3`. -/
def LIMIT : Nat := 3

/-- `app.py` line 52: the profanity blocklist `BAD_WORDS`. -/
def BAD_WORDS : List String := ["바보", "욕설", "스팸"]

/-- A row of the `guestbook` table (`db.py`, class `Guestbook`). -/
structure Entry where
  id : Nat
  name : String
  message : String
  ip_addr : String
  created_at : ℤ
deriving Repr, DecidableEq

/-- The database: rows in insertion order, plus the next auto primary key. -/
structure Store where
  entries : List Entry
  nextId : Nat
deriving Repr, DecidableEq

/-- `ses.add(Guestbook(name=..., message=..., ip_addr=...)); ses.commit()`:
insert a row with a server-assigned id and creation timestamp. -/
def createEntry (s : Store) (name message ip : String) (now : ℤ) : Store :=
  ⟨s.entries ++ [⟨s.nextId, name, message, ip, now⟩], s.nextId + 1⟩

/-- Insert an entry into a list sorted by `created_at` descending,
placing it before an element only when strictly more recent. -/
def insertByTimeDesc (e : Entry) : List Entry → List Entry
  | [] => [e]
  | f :: rest =>
    if f.created_at < e.created_at then e :: f :: rest
    else f :: insertByTimeDesc e rest

/-- Sort entries by `created_at` descending
(`select(Guestbook).order_by(Guestbook.created_at.desc())`). -/
def sortByTimeDesc : List Entry → List Entry
  | [] => []
  | e :: rest => insertByTimeDesc e (sortByTimeDesc rest)

/-- The unbounded most-recent-first listing used by the admin panel. -/
def listAll (s : Store) : List Entry :=
  sortByTimeDesc s.entries

/-- `delete(Guestbook).where(Guestbook.id == id)`: remove rows whose id
matches; a non-matching id removes nothing. -/
def deleteById (s : Store) (id : Nat) : Store :=
  ⟨s.entries.filter (fun e => e.id != id), s.nextId⟩

/-- The responses a route can produce: a 303 redirect, a rendered template
page (with the entries passed to it), or an unhandled server error. -/
inductive Response where
  | redirect (url : String)
  | render (page : String) (entries : List Entry)
  | serverError
deriving Repr, DecidableEq

/-- `verify_csrf` (`app.py` lines 39-41): the supplied token is truthy and
equals the session's stored `_csrf` value (`none` when absent). -/
def verify_csrf (sessCsrf : Option String) (token : String) : Bool :=
  (token != "") && (sessCsrf == some token)

/-- The state threaded through `POST /sign`: the response, the updated
per-IP `recent_posts` map, and the updated database. -/
structure SignResult where
  response : Response
  posts : String → List ℤ
  store : Store

/-- `sign` (`app.py` lines 101-146), the `POST /sign` route.
Arguments mirror the request: the session's stored CSRF token, the form
fields `name`, `message`, `redirect`, `website` (honeypot), `csrf`, the
client IP, the current UTC time, the `recent_posts` map, the database, and
the storage oracle `storeOk`. -/
def sign (sessCsrf : Option String)
    (name message redirect website csrf : String)
    (clientIp : String) (now : ℤ)
    (posts : String → List ℤ) (store : Store) (storeOk : Bool) : SignResult :=
  if verify_csrf sessCsrf csrf = false then
    ⟨.redirect (redirect ++ "?error=보안%20검증에%20실패했습니다"), posts, store⟩
  else if website != "" then
    ⟨.redirect (redirect ++ "?error=스팸으로%20차단되었습니다"), posts, store⟩
  else
    let name := pyStrip name
    let message := pyStrip message
    if name = "" ∨ message = "" then
      ⟨.redirect (redirect ++ "?error=빈%20값은%20안돼요"), posts, store⟩
    else if 30 < name.length ∨ 500 < message.length then
      ⟨.redirect (redirect ++ "?error=너무%20길어요"), posts, store⟩
    else if BAD_WORDS.any (fun bad => strContains message bad) then
      ⟨.redirect (redirect ++ "?error=부적절한%20단어가%20포함되어%20있어요"), posts, store⟩
    else
      let redirect := if redirect = "/tromperie" ∨ redirect = "/verite" then redirect
        else "/tromperie"
      let pruned := (posts clientIp).filter (fun t => now - t < WINDOW_SEC)
      let posts := fun ip => if ip = clientIp then pruned else posts ip
      if LIMIT ≤ pruned.length then
        ⟨.redirect (redirect ++ "?error=너무%20자주%20작성했어요"), posts, store⟩
      else
        let posts := fun ip => if ip = clientIp then pruned ++ [now] else posts ip
        if storeOk then
          ⟨.redirect (redirect ++ "#guestbook"), posts,
            createEntry store name message clientIp now⟩
        else
          ⟨.serverError, posts, store⟩

/-- `is_admin` (`app.py` lines 149-150): truthiness of the session's
`is_admin` key. -/
def is_admin (sessAdmin : Bool) : Bool := sessAdmin

/-- `admin_panel` (`app.py` lines 175-186), the `GET /admin/panel` route. -/
def admin_panel (sessAdmin : Bool) (store : Store) : Response :=
  if is_admin sessAdmin = false then
    .redirect "/admin?error=로그인이%20필요합니다"
  else
    .render "admin_panel.html" (listAll store)

/-- `admin_delete` (`app.py` lines 188-198), the `POST /admin/delete`
route: returns the response and the updated database. -/
def admin_delete (sessAdmin : Bool) (sessCsrf : Option String)
    (id : Nat) (csrf : String) (store : Store) : Response × Store :=
  if is_admin sessAdmin = false then
    (.redirect "/admin?error=로그인이%20필요합니다", store)
  else if verify_csrf sessCsrf csrf = false then
    (.redirect "/admin/panel?error=보안%20검증%20실패", store)
  else
    (.redirect "/admin/panel", deleteById store id)

/-- The checks `sign` applies to `name` and `message` after CSRF and
honeypot (lines 118-125), bundled: both non-empty after trim, within
length bounds, and no blocklisted substring in the message. -/
def contentOk (name message : String) : Bool :=
  (pyStrip name != "") && (pyStrip message != "") &&
  (pyStrip name).length ≤ 30 && (pyStrip message).length ≤ 500 &&
  BAD_WORDS.all (fun bad => !(strContains (pyStrip message) bad))

/-- The redirect-target allowlist coercion (`app.py` lines 127-129). -/
def coerceRedirect (redirect : String) : String :=
  if redirect = "/tromperie" ∨ redirect = "/verite" then redirect else "/tromperie"

/-- The view component of a redirect URL: everything before the query
string (`?`) or fragment (`#`). -/
def urlView (u : String) : String :=
  ⟨u.data.takeWhile (fun c => c ≠ '?' && c ≠ '#')⟩

/-! ### Helper lemmas about the embedded definitions -/

lemma containsSeq_append_right (n l m : List Char) (h : containsSeq n m = true) :
    containsSeq n (l ++ m) = true := by
  induction l with
  | nil => simpa using h
  | cons c rest ih =>
    simp only [List.cons_append, containsSeq, Bool.or_eq_true]
    exact Or.inr ih

lemma strContains_append_right (r err n : String) (h : strContains err n = true) :
    strContains (r ++ err) n = true := by
  unfold strContains at *
  rw [String.data_append]
  exact containsSeq_append_right _ _ _ h

lemma sortByTimeDesc_append_max (l : List Entry) (e : Entry)
    (h : ∀ f ∈ l, f.created_at < e.created_at) :
    sortByTimeDesc (l ++ [e]) = e :: sortByTimeDesc l := by
  induction l with
  | nil => simp [sortByTimeDesc, insertByTimeDesc]
  | cons f rest ih =>
    have hf : f.created_at < e.created_at := h f (List.mem_cons_self f rest)
    rw [List.cons_append, sortByTimeDesc,
      ih (fun g hg => h g (List.mem_cons_of_mem f hg)), sortByTimeDesc,
      insertByTimeDesc]
    simp [not_lt.mpr hf.le]

lemma sign_csrf_fail (sc : Option String) (name message redirect website tok ip : String)
    (now : ℤ) (posts : String → List ℤ) (store : Store) (ok : Bool)
    (h : verify_csrf sc tok = false) :
    sign sc name message redirect website tok ip now posts store ok =
      ⟨.redirect (redirect ++ "?error=보안%20검증에%20실패했습니다"), posts, store⟩ := by
  simp [sign, h]

lemma sign_honeypot (sc : Option String) (name message redirect website tok ip : String)
    (now : ℤ) (posts : String → List ℤ) (store : Store) (ok : Bool)
    (h : verify_csrf sc tok = true) (hw : website ≠ "") :
    sign sc name message redirect website tok ip now posts store ok =
      ⟨.redirect (redirect ++ "?error=스팸으로%20차단되었습니다"), posts, store⟩ := by
  simp [sign, h, hw]

lemma sign_empty_fail (sc : Option String) (name message redirect tok ip : String)
    (now : ℤ) (posts : String → List ℤ) (store : Store) (ok : Bool)
    (h : verify_csrf sc tok = true)
    (h1 : pyStrip name = "" ∨ pyStrip message = "") :
    sign sc name message redirect "" tok ip now posts store ok =
      ⟨.redirect (redirect ++ "?error=빈%20값은%20안돼요"), posts, store⟩ := by
  simp [sign, h, h1]

lemma sign_length_fail (sc : Option String) (name message redirect tok ip : String)
    (now : ℤ) (posts : String → List ℤ) (store : Store) (ok : Bool)
    (h : verify_csrf sc tok = true)
    (h1 : ¬(pyStrip name = "" ∨ pyStrip message = ""))
    (h2 : 30 < (pyStrip name).length ∨ 500 < (pyStrip message).length) :
    sign sc name message redirect "" tok ip now posts store ok =
      ⟨.redirect (redirect ++ "?error=너무%20길어요"), posts, store⟩ := by
  simp [sign, h, h1, h2]

lemma sign_profanity_fail (sc : Option String) (name message redirect tok ip : String)
    (now : ℤ) (posts : String → List ℤ) (store : Store) (ok : Bool)
    (h : verify_csrf sc tok = true)
    (h1 : ¬(pyStrip name = "" ∨ pyStrip message = ""))
    (h2 : ¬(30 < (pyStrip name).length ∨ 500 < (pyStrip message).length))
    (h3 : BAD_WORDS.any (fun bad => strContains (pyStrip message) bad) = true) :
    sign sc name message redirect "" tok ip now posts store ok =
      ⟨.redirect (redirect ++ "?error=부적절한%20단어가%20포함되어%20있어요"), posts, store⟩ := by
  simp [sign, h, h1, h2, h3]

lemma sign_to_rate (sc : Option String) (name message redirect tok ip : String)
    (now : ℤ) (posts : String → List ℤ) (store : Store) (ok : Bool)
    (h : verify_csrf sc tok = true)
    (h1 : ¬(pyStrip name = "" ∨ pyStrip message = ""))
    (h2 : ¬(30 < (pyStrip name).length ∨ 500 < (pyStrip message).length))
    (h3 : BAD_WORDS.any (fun bad => strContains (pyStrip message) bad) = false) :
    sign sc name message redirect "" tok ip now posts store ok =
      (let pruned := (posts ip).filter (fun t => now - t < WINDOW_SEC)
       if LIMIT ≤ pruned.length then
         ⟨.redirect (coerceRedirect redirect ++ "?error=너무%20자주%20작성했어요"),
          fun j => if j = ip then pruned else posts j, store⟩
       else if ok then
         ⟨.redirect (coerceRedirect redirect ++ "#guestbook"),
          fun j => if j = ip then pruned ++ [now] else posts j,
          createEntry store (pyStrip name) (pyStrip message) ip now⟩
       else
         ⟨.serverError, fun j => if j = ip then pruned ++ [now] else posts j, store⟩) := by
  simp only [sign, h, h1, h2, h3, coerceRedirect, bne_self_eq_false, Bool.false_eq_true,
    if_false, if_neg, Bool.true_eq_false, ite_false, ite_true]
  split
  · rfl
  · split
    · congr 1
      funext j
      by_cases hj : j = ip <;> simp [hj]
    · congr 1
      funext j
      by_cases hj : j = ip <;> simp [hj]

lemma contentOk_iff (name message : String) :
    contentOk name message = true ↔
      ¬(pyStrip name = "" ∨ pyStrip message = "") ∧
      ¬(30 < (pyStrip name).length ∨ 500 < (pyStrip message).length) ∧
      BAD_WORDS.any (fun bad => strContains (pyStrip message) bad) = false := by
  simp only [contentOk, Bool.and_eq_true, bne_iff_ne, ne_eq, decide_eq_true_eq,
    List.all_eq_true, Bool.not_eq_true', List.any_eq_false, not_or, not_lt,
    Bool.not_eq_true]
  tauto

/-! ### Claim theorems -/

/-- C4: a `POST /sign` request whose `csrf` form value is empty or differs
from the session's stored token (including a session with no token) leaves
the store unchanged and yields a redirect whose URL contains an error
indicator; the CSRF check passes exactly when the supplied token is
non-empty and equals the stored token. -/
theorem C4_theorem (sc : Option String) (name message redirect website tok ip : String)
    (now : ℤ) (posts : String → List ℤ) (store : Store) (ok : Bool) :
    (verify_csrf sc tok = true ↔ tok ≠ "" ∧ sc = some tok) ∧
    ((tok = "" ∨ sc ≠ some tok) →
      (sign sc name message redirect website tok ip now posts store ok).store = store ∧
      ∃ u, (sign sc name message redirect website tok ip now posts store ok).response =
        Response.redirect u ∧ strContains u "?error=" = true) := by
  have hiff : verify_csrf sc tok = true ↔ tok ≠ "" ∧ sc = some tok := by
    simp [verify_csrf, Bool.and_eq_true, bne_iff_ne]
  refine ⟨hiff, fun hbad => ?_⟩
  have hfail : verify_csrf sc tok = false := by
    cases hv : verify_csrf sc tok with
    | false => rfl
    | true =>
      rcases hiff.mp hv with ⟨hne, hsc⟩
      rcases hbad with hbad | hbad
      · exact absurd hbad hne
      · exact absurd hsc hbad
  rw [sign_csrf_fail sc name message redirect website tok ip now posts store ok hfail]
  exact ⟨rfl, _, rfl, strContains_append_right _ _ _ (by decide)⟩

/-- C4 witness: a concrete request with an empty session and a non-empty
token is rejected with an error redirect and an unchanged store. -/
theorem C4_witness :
    (sign none "alice" "hello" "/verite" "" "tok" "1.2.3.4" 0
      (fun _ => []) ⟨[], 5⟩ true).store = ⟨[], 5⟩ ∧
    ∃ u, (sign none "alice" "hello" "/verite" "" "tok" "1.2.3.4" 0
      (fun _ => []) ⟨[], 5⟩ true).response =
        Response.redirect u ∧ strContains u "?error=" = true :=
  (C4_theorem none "alice" "hello" "/verite" "" "tok" "1.2.3.4" 0
    (fun _ => []) ⟨[], 5⟩ true).2 (Or.inr (by decide))

/-- C5: any `POST /sign` request with a non-empty honeypot field `website`
leaves the store unchanged and yields an error redirect, whatever the
other fields, the session and the rate-limit state are. -/
theorem C5_theorem (sc : Option String) (name message redirect website tok ip : String)
    (now : ℤ) (posts : String → List ℤ) (store : Store) (ok : Bool)
    (hw : website ≠ "") :
    (sign sc name message redirect website tok ip now posts store ok).store = store ∧
    ∃ u, (sign sc name message redirect website tok ip now posts store ok).response =
      Response.redirect u ∧ strContains u "?error=" = true := by
  cases hcv : verify_csrf sc tok with
  | false =>
    rw [sign_csrf_fail sc name message redirect website tok ip now posts store ok hcv]
    exact ⟨rfl, _, rfl, strContains_append_right _ _ _ (by decide)⟩
  | true =>
    rw [sign_honeypot sc name message redirect website tok ip now posts store ok hcv hw]
    exact ⟨rfl, _, rfl, strContains_append_right _ _ _ (by decide)⟩

/-- C5 witness: a concrete otherwise-valid request with a filled honeypot
is rejected and persists nothing. -/
theorem C5_witness :
    (sign (some "t") "alice" "hello" "/verite" "bot" "t" "1.2.3.4" 0
      (fun _ => []) ⟨[], 5⟩ true).store = ⟨[], 5⟩ ∧
    ∃ u, (sign (some "t") "alice" "hello" "/verite" "bot" "t" "1.2.3.4" 0
      (fun _ => []) ⟨[], 5⟩ true).response =
        Response.redirect u ∧ strContains u "?error=" = true :=
  C5_theorem (some "t") "alice" "hello" "/verite" "bot" "t" "1.2.3.4" 0
    (fun _ => []) ⟨[], 5⟩ true (by decide)

/-- C7: `GET /admin/panel` with a session whose `is_admin` flag is not
truthy redirects to `/admin` with an error and renders no entries; with
the flag set it renders the full listing — the flag is the sole gate. -/
theorem C7_theorem (store : Store) :
    admin_panel false store = Response.redirect "/admin?error=로그인이%20필요합니다" ∧
    admin_panel true store = Response.render "admin_panel.html" (listAll store) := by
  exact ⟨rfl, rfl⟩

/-- C8: admin delete removes exactly the entries whose id matches; for an
id matching no stored entry the store is unchanged and the request still
completes with the normal redirect to the panel. -/
theorem C8_theorem (sc : Option String) (tok : String) (id : Nat) (store : Store)
    (hcsrf : verify_csrf sc tok = true) :
    (admin_delete true sc id tok store).1 = Response.redirect "/admin/panel" ∧
    (admin_delete true sc id tok store).2.entries =
      store.entries.filter (fun e => e.id != id) ∧
    ((∀ e ∈ store.entries, e.id ≠ id) →
      admin_delete true sc id tok store = (Response.redirect "/admin/panel", store)) := by
  unfold admin_delete is_admin
  simp only [hcsrf, Bool.true_eq_false, if_false, ite_false, deleteById]
  refine ⟨by trivial, by trivial, fun h => ?_⟩
  have hfilter : store.entries.filter (fun e => e.id != id) = store.entries :=
    List.filter_eq_self.mpr (fun e he => by simpa [bne_iff_ne] using h e he)
  rw [hfilter]

/-- C8 witness: deleting id 2 from a store holding only id 1 is a no-op
that still redirects to the panel. -/
theorem C8_witness :
    (admin_delete true (some "t") 2 "t" ⟨[⟨1, "a", "b", "ip", 0⟩], 2⟩).1 =
      Response.redirect "/admin/panel" ∧
    admin_delete true (some "t") 2 "t" ⟨[⟨1, "a", "b", "ip", 0⟩], 2⟩ =
      (Response.redirect "/admin/panel", ⟨[⟨1, "a", "b", "ip", 0⟩], 2⟩) := by
  have h := C8_theorem (some "t") "t" 2 ⟨[⟨1, "a", "b", "ip", 0⟩], 2⟩ (by decide)
  exact ⟨h.1, h.2.2 (by decide)⟩

lemma sign_contentFail (sc : Option String) (name message redirect tok ip : String)
    (now : ℤ) (posts : String → List ℤ) (store : Store) (ok : Bool)
    (h : verify_csrf sc tok = true) (hco : contentOk name message = false) :
    (sign sc name message redirect "" tok ip now posts store ok).store = store ∧
    (sign sc name message redirect "" tok ip now posts store ok).posts = posts ∧
    ∃ u, (sign sc name message redirect "" tok ip now posts store ok).response =
      Response.redirect u ∧ strContains u "?error=" = true := by
  by_cases h1 : pyStrip name = "" ∨ pyStrip message = ""
  · rw [sign_empty_fail sc name message redirect tok ip now posts store ok h h1]
    exact ⟨rfl, rfl, _, rfl, strContains_append_right _ _ _ (by decide)⟩
  · by_cases h2 : 30 < (pyStrip name).length ∨ 500 < (pyStrip message).length
    · rw [sign_length_fail sc name message redirect tok ip now posts store ok h h1 h2]
      exact ⟨rfl, rfl, _, rfl, strContains_append_right _ _ _ (by decide)⟩
    · have h3 : BAD_WORDS.any (fun bad => strContains (pyStrip message) bad) = true := by
        cases h3 : BAD_WORDS.any (fun bad => strContains (pyStrip message) bad) with
        | true => rfl
        | false =>
          have hc := (contentOk_iff name message).mpr ⟨h1, h2, h3⟩
          rw [hco] at hc
          exact absurd hc (by simp)
      rw [sign_profanity_fail sc name message redirect tok ip now posts store ok h h1 h2 h3]
      exact ⟨rfl, rfl, _, rfl, strContains_append_right _ _ _ (by decide)⟩

/-- C3: `POST /sign` applies its checks in the strict order CSRF, honeypot,
presence/trim, length, profanity, redirect-allowlist coercion, rate limit,
short-circuiting on the first failure with a distinct error redirect; a
submission rejected by CSRF, honeypot or content validation never touches
the rate-limit window, and the store is written only when every check
passes. -/
theorem C3_theorem (sc : Option String) (name message redirect website tok ip : String)
    (now : ℤ) (posts : String → List ℤ) (store : Store) (ok : Bool) :
    (verify_csrf sc tok = false →
      sign sc name message redirect website tok ip now posts store ok =
        ⟨.redirect (redirect ++ "?error=보안%20검증에%20실패했습니다"), posts, store⟩) ∧
    (verify_csrf sc tok = true → website ≠ "" →
      sign sc name message redirect website tok ip now posts store ok =
        ⟨.redirect (redirect ++ "?error=스팸으로%20차단되었습니다"), posts, store⟩) ∧
    (verify_csrf sc tok = true → website = "" →
      (pyStrip name = "" ∨ pyStrip message = "") →
      sign sc name message redirect website tok ip now posts store ok =
        ⟨.redirect (redirect ++ "?error=빈%20값은%20안돼요"), posts, store⟩) ∧
    (verify_csrf sc tok = true → website = "" →
      ¬(pyStrip name = "" ∨ pyStrip message = "") →
      (30 < (pyStrip name).length ∨ 500 < (pyStrip message).length) →
      sign sc name message redirect website tok ip now posts store ok =
        ⟨.redirect (redirect ++ "?error=너무%20길어요"), posts, store⟩) ∧
    (verify_csrf sc tok = true → website = "" →
      ¬(pyStrip name = "" ∨ pyStrip message = "") →
      ¬(30 < (pyStrip name).length ∨ 500 < (pyStrip message).length) →
      BAD_WORDS.any (fun bad => strContains (pyStrip message) bad) = true →
      sign sc name message redirect website tok ip now posts store ok =
        ⟨.redirect (redirect ++ "?error=부적절한%20단어가%20포함되어%20있어요"), posts, store⟩) ∧
    (verify_csrf sc tok = true → website = "" → contentOk name message = true →
      LIMIT ≤ ((posts ip).filter (fun t => now - t < WINDOW_SEC)).length →
      (sign sc name message redirect website tok ip now posts store ok).response =
        .redirect (coerceRedirect redirect ++ "?error=너무%20자주%20작성했어요") ∧
      (sign sc name message redirect website tok ip now posts store ok).store = store) ∧
    ((sign sc name message redirect website tok ip now posts store ok).store ≠ store →
      verify_csrf sc tok = true ∧ website = "" ∧ contentOk name message = true ∧
      ((posts ip).filter (fun t => now - t < WINDOW_SEC)).length < LIMIT ∧ ok = true ∧
      (sign sc name message redirect website tok ip now posts store ok).store =
        createEntry store (pyStrip name) (pyStrip message) ip now) ∧
    (verify_csrf sc tok = false ∨ website ≠ "" ∨ contentOk name message = false →
      (sign sc name message redirect website tok ip now posts store ok).posts = posts) := by
  refine ⟨?_, ?_, ?_, ?_, ?_, ?_, ?_, ?_⟩
  · intro h
    exact sign_csrf_fail sc name message redirect website tok ip now posts store ok h
  · intro h hw
    exact sign_honeypot sc name message redirect website tok ip now posts store ok h hw
  · intro h hw h1
    subst hw
    exact sign_empty_fail sc name message redirect tok ip now posts store ok h h1
  · intro h hw h1 h2
    subst hw
    exact sign_length_fail sc name message redirect tok ip now posts store ok h h1 h2
  · intro h hw h1 h2 h3
    subst hw
    exact sign_profanity_fail sc name message redirect tok ip now posts store ok h h1 h2 h3
  · intro h hw hco hlim
    subst hw
    rcases (contentOk_iff name message).mp hco with ⟨h1, h2, h3⟩
    rw [sign_to_rate sc name message redirect tok ip now posts store ok h h1 h2 h3]
    simp only [if_pos hlim]
    exact ⟨trivial, trivial⟩
  · intro hst
    cases hcv : verify_csrf sc tok with
    | false =>
      rw [sign_csrf_fail sc name message redirect website tok ip now posts store ok hcv] at hst
      exact absurd rfl hst
    | true =>
      by_cases hw : website = ""
      · subst hw
        cases hco : contentOk name message with
        | false =>
          have := (sign_contentFail sc name message redirect tok ip now posts store ok hcv hco).1
          exact absurd this hst
        | true =>
          rcases (contentOk_iff name message).mp hco with ⟨h1, h2, h3⟩
          rw [sign_to_rate sc name message redirect tok ip now posts store ok hcv h1 h2 h3] at hst ⊢
          by_cases hlim : LIMIT ≤ ((posts ip).filter (fun t => now - t < WINDOW_SEC)).length
          · simp only [if_pos hlim] at hst
            exact absurd rfl hst
          · cases hok : ok with
            | false =>
              subst hok
              simp only [if_neg hlim, Bool.false_eq_true, if_false, ite_false] at hst
              exact absurd rfl hst
            | true =>
              subst hok
              simp only [if_neg hlim, ite_true]
              exact ⟨trivial, trivial, trivial, not_le.mp hlim, trivial, trivial⟩
      · rw [sign_honeypot sc name message redirect website tok ip now posts store ok hcv hw] at hst
        exact absurd rfl hst
  · intro hrej
    cases hcv : verify_csrf sc tok with
    | false =>
      rw [sign_csrf_fail sc name message redirect website tok ip now posts store ok hcv]
    | true =>
      by_cases hw : website = ""
      · subst hw
        cases hco : contentOk name message with
        | false =>
          exact (sign_contentFail sc name message redirect tok ip now posts store ok hcv hco).2.1
        | true =>
          rcases hrej with hbad | hbad | hbad
          · rw [hcv] at hbad
            exact absurd hbad (by simp)
          · exact absurd rfl hbad
          · rw [hco] at hbad
            exact absurd hbad (by simp)
      · rw [sign_honeypot sc name message redirect website tok ip now posts store ok hcv hw]

lemma sign_step (sc : Option String) (name message redirect tok ip : String)
    (now : ℤ) (posts : String → List ℤ) (store : Store)
    (hcsrf : verify_csrf sc tok = true) (hco : contentOk name message = true)
    (hlen : ((posts ip).filter (fun t => now - t < WINDOW_SEC)).length < LIMIT) :
    (sign sc name message redirect "" tok ip now posts store true).response =
      .redirect (coerceRedirect redirect ++ "#guestbook") ∧
    (sign sc name message redirect "" tok ip now posts store true).posts ip =
      (posts ip).filter (fun t => now - t < WINDOW_SEC) ++ [now] ∧
    (∀ j, j ≠ ip →
      (sign sc name message redirect "" tok ip now posts store true).posts j = posts j) ∧
    (sign sc name message redirect "" tok ip now posts store true).store.entries =
      store.entries ++ [⟨store.nextId, pyStrip name, pyStrip message, ip, now⟩] ∧
    (sign sc name message redirect "" tok ip now posts store true).store.nextId =
      store.nextId + 1 := by
  rcases (contentOk_iff name message).mp hco with ⟨h1, h2, h3⟩
  rw [sign_to_rate sc name message redirect tok ip now posts store true hcsrf h1 h2 h3]
  simp only [if_neg (not_le.mpr hlen), ite_true, createEntry]
  refine ⟨trivial, by simp, fun j hj => by simp [hj], by trivial, by trivial⟩

lemma sign_step_reject (sc : Option String) (name message redirect tok ip : String)
    (now : ℤ) (posts : String → List ℤ) (store : Store) (ok : Bool)
    (hcsrf : verify_csrf sc tok = true) (hco : contentOk name message = true)
    (hlen : LIMIT ≤ ((posts ip).filter (fun t => now - t < WINDOW_SEC)).length) :
    (sign sc name message redirect "" tok ip now posts store ok).response =
      .redirect (coerceRedirect redirect ++ "?error=너무%20자주%20작성했어요") ∧
    (sign sc name message redirect "" tok ip now posts store ok).posts ip =
      (posts ip).filter (fun t => now - t < WINDOW_SEC) ∧
    (∀ j, j ≠ ip →
      (sign sc name message redirect "" tok ip now posts store ok).posts j = posts j) ∧
    (sign sc name message redirect "" tok ip now posts store ok).store = store := by
  rcases (contentOk_iff name message).mp hco with ⟨h1, h2, h3⟩
  rw [sign_to_rate sc name message redirect tok ip now posts store ok hcsrf h1 h2 h3]
  simp only [if_pos hlen]
  refine ⟨trivial, by simp, fun j hj => by simp [hj], by trivial⟩

/-- Drive a sequence of `POST /sign` requests with the same form data and
IP at the given times, threading the rate-limit map and the store;
returns the responses in order plus the final map and store. -/
def signChain (sc : Option String) (name message redirect tok ip : String)
    (times : List ℤ) (posts : String → List ℤ) (store : Store) :
    List Response × (String → List ℤ) × Store :=
  match times with
  | [] => ([], posts, store)
  | t :: rest =>
    let r := sign sc name message redirect "" tok ip t posts store true
    let c := signChain sc name message redirect tok ip rest r.posts r.store
    (r.response :: c.1, c.2)

/-- C2: with valid CSRF and content, 3 submissions from one IP within the
60-second window all succeed; a 4th within 60 seconds of all of them is
rejected with no entry persisted; a later submission more than 60 seconds
after the oldest finds that timestamp pruned and succeeds. -/
theorem C2_theorem (sc : Option String) (name message redirect tok ip : String)
    (t1 t2 t3 t4 t5 : ℤ) (posts0 : String → List ℤ) (store : Store)
    (hcsrf : verify_csrf sc tok = true) (hco : contentOk name message = true)
    (h12 : t1 ≤ t2) (h23 : t2 ≤ t3) (h34 : t3 ≤ t4) (h45 : t4 ≤ t5)
    (hwin : t4 - t1 < WINDOW_SEC) (hgap : WINDOW_SEC < t5 - t1)
    (hempty : posts0 ip = []) :
    (signChain sc name message redirect tok ip [t1, t2, t3, t4, t5] posts0 store).1 =
      [.redirect (coerceRedirect redirect ++ "#guestbook"),
       .redirect (coerceRedirect redirect ++ "#guestbook"),
       .redirect (coerceRedirect redirect ++ "#guestbook"),
       .redirect (coerceRedirect redirect ++ "?error=너무%20자주%20작성했어요"),
       .redirect (coerceRedirect redirect ++ "#guestbook")] ∧
    t1 ∉ (signChain sc name message redirect tok ip [t1, t2, t3, t4, t5] posts0 store).2.1 ip ∧
    (signChain sc name message redirect tok ip
        [t1, t2, t3, t4, t5] posts0 store).2.2.entries.length =
      store.entries.length + 4 ∧
    (∀ (posts' : String → List ℤ) (now : ℤ) (store' : Store),
      (LIMIT ≤ ((posts' ip).filter (fun t => now - t < WINDOW_SEC)).length →
        (sign sc name message redirect "" tok ip now posts' store' true).store = store' ∧
        (sign sc name message redirect "" tok ip now posts' store' true).posts ip =
          (posts' ip).filter (fun t => now - t < WINDOW_SEC)) ∧
      (((posts' ip).filter (fun t => now - t < WINDOW_SEC)).length < LIMIT →
        (sign sc name message redirect "" tok ip now posts' store' true).posts ip =
          (posts' ip).filter (fun t => now - t < WINDOW_SEC) ++ [now])) := by
  have hW : WINDOW_SEC = (60 : ℤ) := rfl
  have hwin60 : t4 - t1 < 60 := by rw [hW] at hwin; exact hwin
  have hgap60 : 60 < t5 - t1 := by rw [hW] at hgap; exact hgap
  have h21 : t2 - t1 < WINDOW_SEC := by rw [hW]; omega
  have h31 : t3 - t1 < WINDOW_SEC := by rw [hW]; omega
  have h32 : t3 - t2 < WINDOW_SEC := by rw [hW]; omega
  have h41 : t4 - t1 < WINDOW_SEC := by rw [hW]; omega
  have h42 : t4 - t2 < WINDOW_SEC := by rw [hW]; omega
  have h43 : t4 - t3 < WINDOW_SEC := by rw [hW]; omega
  have h51no : ¬(t5 - t1 < WINDOW_SEC) := by rw [hW]; omega
  have hL : LIMIT = 3 := rfl
  -- step 1
  obtain ⟨e1resp, e1post, e1oth, e1st, e1id⟩ :=
    sign_step sc name message redirect tok ip t1 posts0 store hcsrf hco
      (by rw [hempty]; simp [LIMIT])
  have hp1 : (sign sc name message redirect "" tok ip t1 posts0 store true).posts ip =
      [t1] := by
    rw [e1post, hempty]; simp
  -- step 2
  obtain ⟨e2resp, e2post, e2oth, e2st, e2id⟩ :=
    sign_step sc name message redirect tok ip t2
      (sign sc name message redirect "" tok ip t1 posts0 store true).posts
      (sign sc name message redirect "" tok ip t1 posts0 store true).store hcsrf hco
      (by rw [hp1]; simp [LIMIT, List.filter_cons, h21])
  have hf1 : ([t1] : List ℤ).filter (fun t => t2 - t < WINDOW_SEC) = [t1] := by
    simp [List.filter_cons, h21]
  have hp2 : (sign sc name message redirect "" tok ip t2
      (sign sc name message redirect "" tok ip t1 posts0 store true).posts
      (sign sc name message redirect "" tok ip t1 posts0 store true).store true).posts ip =
      [t1, t2] := by
    rw [e2post, hp1, hf1]; rfl
  -- step 3
  obtain ⟨e3resp, e3post, e3oth, e3st, e3id⟩ :=
    sign_step sc name message redirect tok ip t3
      (sign sc name message redirect "" tok ip t2
        (sign sc name message redirect "" tok ip t1 posts0 store true).posts
        (sign sc name message redirect "" tok ip t1 posts0 store true).store true).posts
      (sign sc name message redirect "" tok ip t2
        (sign sc name message redirect "" tok ip t1 posts0 store true).posts
        (sign sc name message redirect "" tok ip t1 posts0 store true).store true).store
      hcsrf hco
      (by rw [hp2]; simp [LIMIT, List.filter_cons, h31, h32])
  have hf2 : ([t1, t2] : List ℤ).filter (fun t => t3 - t < WINDOW_SEC) = [t1, t2] := by
    simp [List.filter_cons, h31, h32]
  have hp3 : (sign sc name message redirect "" tok ip t3
      (sign sc name message redirect "" tok ip t2
        (sign sc name message redirect "" tok ip t1 posts0 store true).posts
        (sign sc name message redirect "" tok ip t1 posts0 store true).store true).posts
      (sign sc name message redirect "" tok ip t2
        (sign sc name message redirect "" tok ip t1 posts0 store true).posts
        (sign sc name message redirect "" tok ip t1 posts0 store true).store true).store
      true).posts ip = [t1, t2, t3] := by
    rw [e3post, hp2, hf2]; rfl
  set r3 := sign sc name message redirect "" tok ip t3
      (sign sc name message redirect "" tok ip t2
        (sign sc name message redirect "" tok ip t1 posts0 store true).posts
        (sign sc name message redirect "" tok ip t1 posts0 store true).store true).posts
      (sign sc name message redirect "" tok ip t2
        (sign sc name message redirect "" tok ip t1 posts0 store true).posts
        (sign sc name message redirect "" tok ip t1 posts0 store true).store true).store
      true with hr3
  -- step 4: the window holds [t1, t2, t3], all within 60s of t4: rejected
  have hf3 : ([t1, t2, t3] : List ℤ).filter (fun t => t4 - t < WINDOW_SEC) =
      [t1, t2, t3] := by
    simp [List.filter_cons, h41, h42, h43]
  obtain ⟨e4resp, e4post, e4oth, e4st⟩ :=
    sign_step_reject sc name message redirect tok ip t4 r3.posts r3.store true hcsrf hco
      (by rw [hp3, hf3, hL]; simp)
  have hp4 : (sign sc name message redirect "" tok ip t4 r3.posts r3.store true).posts ip =
      [t1, t2, t3] := by
    rw [e4post, hp3, hf3]
  set r4 := sign sc name message redirect "" tok ip t4 r3.posts r3.store true with hr4
  -- step 5: t1 is pruned, at most 2 timestamps remain: accepted
  have hdrop : ([t1, t2, t3] : List ℤ).filter (fun t => t5 - t < WINDOW_SEC) =
      ([t2, t3] : List ℤ).filter (fun t => t5 - t < WINDOW_SEC) := by
    rw [List.filter_cons, if_neg]
    simp [h51no]
  obtain ⟨e5resp, e5post, e5oth, e5st, e5id⟩ :=
    sign_step sc name message redirect tok ip t5 r4.posts r4.store hcsrf hco
      (by
        rw [hp4, hdrop, hL]
        have hb := List.length_filter_le (fun t => decide (t5 - t < WINDOW_SEC)) [t2, t3]
        simp only [List.length_cons, List.length_nil] at hb
        omega)
  -- assemble
  refine ⟨?_, ?_, ?_, ?_⟩
  · show (signChain sc name message redirect tok ip [t1, t2, t3, t4, t5] posts0 store).1 = _
    simp only [signChain, ← hr3, ← hr4, e1resp, e2resp, e3resp, e4resp, e5resp]
  · show t1 ∉ (sign sc name message redirect "" tok ip t5 r4.posts r4.store true).posts ip
    rw [e5post, hp4, hdrop]
    intro hmem
    rcases List.mem_append.mp hmem with hmem | hmem
    · exact h51no (by simpa using (List.mem_filter.mp hmem).2)
    · have ht : t1 = t5 := by simpa using hmem
      rw [hW] at hgap
      omega
  · show (sign sc name message redirect "" tok ip t5 r4.posts r4.store true).store.entries.length = _
    have l1 : (sign sc name message redirect "" tok ip t1 posts0 store true).store.entries.length =
        store.entries.length + 1 := by rw [e1st]; simp
    have l2 : (sign sc name message redirect "" tok ip t2
        (sign sc name message redirect "" tok ip t1 posts0 store true).posts
        (sign sc name message redirect "" tok ip t1 posts0 store true).store
        true).store.entries.length =
        store.entries.length + 2 := by rw [e2st]; simp [l1]
    have l3 : r3.store.entries.length = store.entries.length + 3 := by
      rw [hr3, e3st]; simp [l2]
    have l4 : r4.store.entries.length = store.entries.length + 3 := by
      rw [hr4, e4st]; exact l3
    rw [e5st]
    simp [l4]
  · intro posts' now store'
    constructor
    · intro hge
      obtain ⟨_, hpost, _, hst⟩ :=
        sign_step_reject sc name message redirect tok ip now posts' store' true
          hcsrf hco hge
      exact ⟨hst, hpost⟩
    · intro hlt
      obtain ⟨_, hpost, _, _, _⟩ :=
        sign_step sc name message redirect tok ip now posts' store' hcsrf hco hlt
      exact hpost

/-- C2 witness: five concrete submissions at times 0, 1, 2, 3, 61 from one
IP — the first three succeed, the fourth is rate-limited, the fifth
succeeds once more than 60 seconds have passed since the oldest. -/
theorem C2_witness :
    (signChain (some "t") "bob" "hi" "/verite" "t" "1.2.3.4" [0, 1, 2, 3, 61]
        (fun _ => []) ⟨[], 1⟩).1 =
      [Response.redirect (coerceRedirect "/verite" ++ "#guestbook"),
       Response.redirect (coerceRedirect "/verite" ++ "#guestbook"),
       Response.redirect (coerceRedirect "/verite" ++ "#guestbook"),
       Response.redirect (coerceRedirect "/verite" ++ "?error=너무%20자주%20작성했어요"),
       Response.redirect (coerceRedirect "/verite" ++ "#guestbook")] :=
  (C2_theorem (some "t") "bob" "hi" "/verite" "t" "1.2.3.4" 0 1 2 3 61
    (fun _ => []) ⟨[], 1⟩ (by decide) (by decide) (by decide) (by decide)
    (by decide) (by decide) (by decide) (by decide) rfl).1

/-- C6: past CSRF and honeypot and under the rate limit, the submission is
rejected (store unchanged, error redirect) exactly when trimmed name or
message is empty, too long, or the message contains a blocklisted
substring; otherwise the trimmed values are persisted and the success
redirect is returned. -/
theorem C6_theorem (sc : Option String) (name message redirect tok ip : String)
    (now : ℤ) (posts : String → List ℤ) (store : Store)
    (hcsrf : verify_csrf sc tok = true)
    (hrate : ((posts ip).filter (fun t => now - t < WINDOW_SEC)).length < LIMIT) :
    (contentOk name message = false ↔
      pyStrip name = "" ∨ pyStrip message = "" ∨
      30 < (pyStrip name).length ∨ 500 < (pyStrip message).length ∨
      ∃ bad ∈ BAD_WORDS, strContains (pyStrip message) bad = true) ∧
    (contentOk name message = false ↔
      (sign sc name message redirect "" tok ip now posts store true).store = store) ∧
    (contentOk name message = false →
      ∃ u, (sign sc name message redirect "" tok ip now posts store true).response =
        Response.redirect u ∧ strContains u "?error=" = true) ∧
    (contentOk name message = true →
      (sign sc name message redirect "" tok ip now posts store true).store.entries =
        store.entries ++ [⟨store.nextId, pyStrip name, pyStrip message, ip, now⟩] ∧
      (sign sc name message redirect "" tok ip now posts store true).response =
        Response.redirect (coerceRedirect redirect ++ "#guestbook")) := by
  have hchar : contentOk name message = false ↔
      pyStrip name = "" ∨ pyStrip message = "" ∨
      30 < (pyStrip name).length ∨ 500 < (pyStrip message).length ∨
      ∃ bad ∈ BAD_WORDS, strContains (pyStrip message) bad = true := by
    constructor
    · intro h
      by_cases h1 : pyStrip name = ""
      · exact Or.inl h1
      by_cases h2 : pyStrip message = ""
      · exact Or.inr (Or.inl h2)
      by_cases h3 : 30 < (pyStrip name).length
      · exact Or.inr (Or.inr (Or.inl h3))
      by_cases h4 : 500 < (pyStrip message).length
      · exact Or.inr (Or.inr (Or.inr (Or.inl h4)))
      cases h5 : BAD_WORDS.any (fun bad => strContains (pyStrip message) bad) with
      | true =>
        refine Or.inr (Or.inr (Or.inr (Or.inr ?_)))
        simpa using List.any_eq_true.mp h5
      | false =>
        exfalso
        have hco := (contentOk_iff name message).mpr ⟨by tauto, by tauto, h5⟩
        rw [h] at hco
        exact absurd hco (by simp)
    · intro h
      cases hco : contentOk name message with
      | false => rfl
      | true =>
        exfalso
        rcases (contentOk_iff name message).mp hco with ⟨hA, hB, hC⟩
        rcases h with h | h | h | h | ⟨bad, hmem, hbad⟩
        · exact hA (Or.inl h)
        · exact hA (Or.inr h)
        · exact hB (Or.inl h)
        · exact hB (Or.inr h)
        · have hany := List.any_eq_true.mpr ⟨bad, hmem, hbad⟩
          rw [hC] at hany
          exact absurd hany (by simp)
  have hins : contentOk name message = true →
      (sign sc name message redirect "" tok ip now posts store true).store.entries =
        store.entries ++ [⟨store.nextId, pyStrip name, pyStrip message, ip, now⟩] ∧
      (sign sc name message redirect "" tok ip now posts store true).response =
        Response.redirect (coerceRedirect redirect ++ "#guestbook") := by
    intro hco
    obtain ⟨hresp, _, _, hst, _⟩ :=
      sign_step sc name message redirect tok ip now posts store hcsrf hco hrate
    exact ⟨hst, hresp⟩
  refine ⟨hchar, ?_, ?_, hins⟩
  · constructor
    · intro hco
      exact (sign_contentFail sc name message redirect tok ip now posts store true
        hcsrf hco).1
    · intro hst
      cases hco : contentOk name message with
      | false => rfl
      | true =>
        exfalso
        have hent := (hins hco).1
        rw [hst] at hent
        have : store.entries.length =
            (store.entries ++
              [(⟨store.nextId, pyStrip name, pyStrip message, ip, now⟩ : Entry)]).length :=
          congrArg List.length hent
        simp at this
  · intro hco
    exact (sign_contentFail sc name message redirect tok ip now posts store true
      hcsrf hco).2.2

/-- C6 witness: a message containing the blocklisted term 바보 is rejected
with an error redirect and nothing persisted. -/
theorem C6_witness :
    (sign (some "t") "alice" "x바보y" "/verite" "" "t" "ip" 0 (fun _ => [])
        ⟨[], 1⟩ true).store = ⟨[], 1⟩ ∧
    ∃ u, (sign (some "t") "alice" "x바보y" "/verite" "" "t" "ip" 0 (fun _ => [])
        ⟨[], 1⟩ true).response = Response.redirect u ∧
      strContains u "?error=" = true := by
  have h := C6_theorem (some "t") "alice" "x바보y" "/verite" "t" "ip" 0 (fun _ => [])
    ⟨[], 1⟩ (by decide) (by decide)
  exact ⟨h.2.1.mp (by decide), h.2.2.1 (by decide)⟩

/-- C3 witness: a concrete request with an invalid CSRF token
short-circuits at the first check, leaving window and store untouched. -/
theorem C3_witness :
    sign none "a" "b" "/x" "" "" "ip" 0 (fun _ => []) ⟨[], 1⟩ true =
      ⟨Response.redirect ("/x" ++ "?error=보안%20검증에%20실패했습니다"),
        fun _ => [], ⟨[], 1⟩⟩ :=
  (C3_theorem none "a" "b" "/x" "" "" "ip" 0 (fun _ => []) ⟨[], 1⟩ true).1 (by decide)

/-- C9: an entry created through the pipeline with trimmed name, message
and client IP appears, with a server-assigned id and creation timestamp,
at the head of the subsequent unbounded most-recent-first listing, before
all previously created entries. -/
theorem C9_theorem (sc : Option String) (name message redirect tok ip : String)
    (now : ℤ) (posts : String → List ℤ) (store : Store)
    (hcsrf : verify_csrf sc tok = true) (hco : contentOk name message = true)
    (hrate : ((posts ip).filter (fun t => now - t < WINDOW_SEC)).length < LIMIT)
    (hfresh : ∀ e ∈ store.entries, e.created_at < now) :
    listAll (sign sc name message redirect "" tok ip now posts store true).store =
      ⟨store.nextId, pyStrip name, pyStrip message, ip, now⟩ :: listAll store := by
  rcases (contentOk_iff name message).mp hco with ⟨h1, h2, h3⟩
  rw [sign_to_rate sc name message redirect tok ip now posts store true hcsrf h1 h2 h3]
  simp only [if_neg (not_le.mpr hrate), ite_true]
  unfold listAll createEntry
  exact sortByTimeDesc_append_max store.entries _ hfresh

/-- C9 witness: a concrete submission lands at the head of `listAll`,
before the pre-existing older entry. -/
theorem C9_witness :
    listAll (sign (some "t") "bob" "hi" "/verite" "" "t" "ip" 5
        (fun _ => []) ⟨[⟨1, "old", "msg", "ip", 0⟩], 2⟩ true).store =
      ⟨2, pyStrip "bob", pyStrip "hi", "ip", 5⟩ ::
        listAll ⟨[⟨1, "old", "msg", "ip", 0⟩], 2⟩ :=
  C9_theorem (some "t") "bob" "hi" "/verite" "t" "ip" 5 (fun _ => [])
    ⟨[⟨1, "old", "msg", "ip", 0⟩], 2⟩ (by decide) (by decide) (by decide) (by decide)

/-- C10: on a submission that passes every check, the timestamp is
appended to the per-IP window before the store write is attempted and is
not rolled back: when the write fails the rate-limit map equals the map
after a successful write, the slot is consumed, the store is unchanged and
the request surfaces a server error. -/
theorem C10_theorem (sc : Option String) (name message redirect tok ip : String)
    (now : ℤ) (posts : String → List ℤ) (store : Store)
    (hcsrf : verify_csrf sc tok = true) (hco : contentOk name message = true)
    (hrate : ((posts ip).filter (fun t => now - t < WINDOW_SEC)).length < LIMIT) :
    (sign sc name message redirect "" tok ip now posts store false).posts =
      (sign sc name message redirect "" tok ip now posts store true).posts ∧
    (sign sc name message redirect "" tok ip now posts store false).posts ip =
      (posts ip).filter (fun t => now - t < WINDOW_SEC) ++ [now] ∧
    (sign sc name message redirect "" tok ip now posts store false).store = store ∧
    (sign sc name message redirect "" tok ip now posts store false).response =
      Response.serverError := by
  rcases (contentOk_iff name message).mp hco with ⟨h1, h2, h3⟩
  rw [sign_to_rate sc name message redirect tok ip now posts store false hcsrf h1 h2 h3,
    sign_to_rate sc name message redirect tok ip now posts store true hcsrf h1 h2 h3]
  simp only [if_neg (not_le.mpr hrate), ite_true, Bool.false_eq_true, ite_false, if_false]
  exact ⟨trivial, by simp, trivial, trivial⟩

/-- C10 witness: at a concrete passing submission with a failing store,
the window slot is consumed exactly as on success and nothing is stored. -/
theorem C10_witness :
    (sign (some "t") "bob" "hi" "/verite" "" "t" "ip" 0 (fun _ => []) ⟨[], 1⟩ false).posts =
      (sign (some "t") "bob" "hi" "/verite" "" "t" "ip" 0 (fun _ => []) ⟨[], 1⟩ true).posts ∧
    (sign (some "t") "bob" "hi" "/verite" "" "t" "ip" 0 (fun _ => []) ⟨[], 1⟩ false).posts "ip" =
      (((fun _ => []) : String → List ℤ) "ip").filter (fun t => (0 : ℤ) - t < WINDOW_SEC)
        ++ [(0 : ℤ)] ∧
    (sign (some "t") "bob" "hi" "/verite" "" "t" "ip" 0 (fun _ => []) ⟨[], 1⟩ false).store =
      ⟨[], 1⟩ ∧
    (sign (some "t") "bob" "hi" "/verite" "" "t" "ip" 0 (fun _ => []) ⟨[], 1⟩ false).response =
      Response.serverError :=
  C10_theorem (some "t") "bob" "hi" "/verite" "t" "ip" 0 (fun _ => []) ⟨[], 1⟩
    (by decide) (by decide) (by decide)

/-- C1 counterexample: a request whose trimmed name is empty and whose
redirect field is `/evil` is answered with a redirect to
`/evil?error=...` — a failure branch whose target view is outside
`{/tromperie, /verite}`, so coercion does not protect every redirect
response. -/
theorem C1_counterexample :
    (sign (some "tok") "" "hi" "/evil" "" "tok" "1.2.3.4" 0 (fun _ => [])
        ⟨[], 1⟩ true).response =
      Response.redirect "/evil?error=빈%20값은%20안돼요" ∧
    urlView "/evil?error=빈%20값은%20안돼요" ≠ "/tromperie" ∧
    urlView "/evil?error=빈%20값은%20안돼요" ≠ "/verite" := by
  decide

/-- C1 (amended): the allowlist coercion runs after content validation and
before the rate-limit check, so for every request that passes CSRF,
honeypot and content validation, any redirect response (rate-limit
failure or success) targets `/tromperie` or `/verite`; the earlier
failure branches instead echo the raw client-supplied redirect value. -/
theorem C1_theorem (sc : Option String) (name message redirect tok ip : String)
    (now : ℤ) (posts : String → List ℤ) (store : Store) (ok : Bool)
    (hcsrf : verify_csrf sc tok = true) (hco : contentOk name message = true) :
    ∀ u, (sign sc name message redirect "" tok ip now posts store ok).response =
        Response.redirect u →
      urlView u = "/tromperie" ∨ urlView u = "/verite" := by
  rcases (contentOk_iff name message).mp hco with ⟨h1, h2, h3⟩
  rw [sign_to_rate sc name message redirect tok ip now posts store ok hcsrf h1 h2 h3]
  intro u hu
  have hcoerce : ∀ s : String,
      urlView ("/tromperie" ++ s) = "/tromperie" → urlView ("/verite" ++ s) = "/verite" →
      urlView (coerceRedirect redirect ++ s) = "/tromperie" ∨
      urlView (coerceRedirect redirect ++ s) = "/verite" := by
    intro s hs1 hs2
    unfold coerceRedirect
    by_cases hr : redirect = "/tromperie" ∨ redirect = "/verite"
    · rcases hr with hr | hr <;> subst hr
      · rw [if_pos (Or.inl rfl)]
        exact Or.inl hs1
      · rw [if_pos (Or.inr rfl)]
        exact Or.inr hs2
    · rw [if_neg hr]
      exact Or.inl hs1
  by_cases hlim : LIMIT ≤ ((posts ip).filter (fun t => now - t < WINDOW_SEC)).length
  · simp only [if_pos hlim, Response.redirect.injEq] at hu
    subst hu
    exact hcoerce "?error=너무%20자주%20작성했어요" (by decide) (by decide)
  · cases ok with
    | true =>
      simp only [if_neg hlim, ite_true, Response.redirect.injEq] at hu
      subst hu
      exact hcoerce "#guestbook" (by decide) (by decide)
    | false =>
      simp only [if_neg hlim, Bool.false_eq_true, ite_false, if_false] at hu
      exact absurd hu (by simp)

/-- C1 witness: with redirect field `/evil` and all checks passing, the
success redirect targets the coerced view `/tromperie`. -/
theorem C1_witness :
    urlView "/tromperie#guestbook" = "/tromperie" ∨
    urlView "/tromperie#guestbook" = "/verite" :=
  C1_theorem (some "t") "bob" "hi" "/evil" "t" "ip" 0 (fun _ => []) ⟨[], 1⟩ true
    (by decide) (by decide) "/tromperie#guestbook" (by decide)
